import Mathlib

/-!
Shallow embedding of the script-state core of pyFlightscript
(`pyFlightscript/script.py` and `pyFlightscript/base.py`).

The embedded Python values:
* `State` mirrors the `State` class: a mutable list of script lines,
  modelled as an immutable record threaded through the operations.
* `PyArg` models the dynamically typed argument of `State.append_lines`:
  a Python `str`, a Python `list` of strings, or any other Python value
  (the `other` constructor, tagged so that it stands for arbitrarily many
  distinct non-text values).
* The filesystem is `FS`, a map from filenames to optional file contents;
  `none` means the file does not exist.
* Fallible operations (`os.remove`, and functions that may `raise`)
  return `Except`.
-/

namespace PyFS

/-- A Python value passed to `State.append_lines`: a `str`, a `list` of
strings, or any other Python object (int, dict, None, ...), the latter
tagged by a natural number so that distinct foreign values can be told
apart. -/
inductive PyArg where
  | str (s : String)
  | list (ls : List String)
  | other (tag : Nat)
deriving DecidableEq, Repr

/-- `true` exactly when the argument is a Python `str` or `list`
(the two cases `State.append_lines` acts on). -/
def PyArg.isText : PyArg → Bool
  | .str _ => true
  | .list _ => true
  | .other _ => false

/-- The lines a single `append_lines` argument contributes to the log:
a single string contributes one element, a list contributes its elements
in order, anything else contributes nothing. -/
def PyArg.contrib : PyArg → List String
  | .str s => [s]
  | .list ls => ls
  | .other _ => []

/-- The `State` class of `script.py`: the accumulated script lines. -/
structure State where
  lines : List String
deriving DecidableEq, Repr

/-- `State.__init__`: an empty list of lines. -/
def State.init : State := ⟨[]⟩

/-- `State.append_lines`: a `str` is appended as one line, a `list` is
extended onto the end, any other value falls through the
`isinstance` chain and the method returns with the log untouched. -/
def State.append_lines (st : State) (arg : PyArg) : State :=
  match arg with
  | .str s => ⟨st.lines ++ [s]⟩
  | .list ls => ⟨st.lines ++ ls⟩
  | .other _ => st

/-- `State.clear_lines`: `self.lines = []`. -/
def State.clear_lines (_st : State) : State := ⟨[]⟩

/-- The filesystem: filenames to contents, `none` when absent. -/
def FS : Type := String → Option String

/-- Create or overwrite a file. -/
def FS.writeFile (fs : FS) (name content : String) : FS :=
  fun m => if m = name then some content else fs m

/-- `os.path.exists`. -/
def FS.existsFile (fs : FS) (name : String) : Bool :=
  (fs name).isSome

/-- Delete a file from the filesystem map. -/
def FS.removeFile (fs : FS) (name : String) : FS :=
  fun m => if m = name then none else fs m

/-- The text `State.write_to_file` produces: each log line followed by a
newline (the loop `file.write(line + '\n')`), then one extra newline
(the final `file.write('\n')`). -/
def scriptContent (st : State) : String :=
  st.lines.foldl (fun acc line => acc ++ line ++ "\n") "" ++ "\n"

/-- `State.write_to_file`: open `filename` for writing (creating or
truncating it) and write `scriptContent`; `self.lines` is not touched. -/
def State.write_to_file (st : State) (fs : FS) (filename : String) :
    State × FS :=
  (st, fs.writeFile filename (scriptContent st))

/-- A Python `OSError` as caught by `hard_reset`: the fields it reads. -/
structure OSErr where
  filename : String
  strerror : String
deriving DecidableEq, Repr

/-- `os.remove`: parameterised by whether the filesystem-level removal
fails (file locked, permission denied, ...). -/
def os_remove (removeFails : Bool) (filename : String) :
    Except OSErr Unit :=
  if removeFails then .error ⟨filename, "Permission denied"⟩ else .ok ()

/-- The module-level `hard_reset`: clear the script lines, then, if the
file exists, try to `os.remove` it; an `OSError` is caught and printed
(`print(f"Error: {e.filename} - {e.strerror}")`), never propagated.
Returns the new script state, the new filesystem, and the printed
console lines; an uncaught exception would be `.error`. -/
def hard_reset (st : State) (fs : FS) (filename : String)
    (removeFails : Bool) : Except OSErr (State × FS × List String) :=
  let st1 := st.clear_lines
  if fs.existsFile filename then
    match os_remove removeFails filename with
    | .ok _ => .ok (st1, fs.removeFile filename, [])
    | .error e =>
        .ok (st1, fs, ["Error: " ++ e.filename ++ " - " ++ e.strerror])
  else
    .ok (st1, fs, [])

/-- The subprocess command list built by `run_script`:
`command = [fsexe_path]`, then `command.append('-hidden')` when
`hidden`, then `command.extend(['-script', script_path])`. -/
def run_script_command (fsexe_path script_path : String)
    (hidden : Bool) : List String :=
  let command := [fsexe_path]
  let command := if hidden then command ++ ["-hidden"] else command
  command ++ ["-script", script_path]

/-- One call to the core operations of `script.py`. `hardReset` carries
whether the filesystem-level deletion would fail. -/
inductive Op where
  | append (arg : PyArg)
  | write (filename : String)
  | clear
  | hardReset (filename : String) (removeFails : Bool)

/-- The observable world: the shared `script` state, the filesystem and
the console output. -/
structure World where
  script : State
  fs : FS
  console : List String

/-- The initial world: empty log, empty filesystem, no console output. -/
def World.init : World := ⟨State.init, fun _ => none, []⟩

/-- One step of the module-level API: `script.append_lines`,
`write_to_file` (which also prints), `clear_lines` (which also prints),
and `hard_reset`. -/
def step (w : World) : Op → World
  | .append a => { w with script := w.script.append_lines a }
  | .write f =>
      let p := w.script.write_to_file w.fs f
      { script := p.1, fs := p.2,
        console := w.console ++ ["pyscript lines written to: " ++ f] }
  | .clear =>
      { w with script := w.script.clear_lines,
               console := w.console ++ ["pyscript lines cleared"] }
  | .hardReset f rf =>
      match hard_reset w.script w.fs f rf with
      | .ok r => { script := r.1, fs := r.2.1,
                   console := w.console ++ r.2.2 }
      | .error _ => w

/-- Run a sequence of operations from a world. -/
def run (w : World) (ops : List Op) : World :=
  ops.foldl step w

/-- Python `str.splitlines` on text whose only line separator is `'\n'`:
`'\n'` terminates a line; text after the last `'\n'`, if nonempty, is a
final line of its own. -/
def splitlinesAux : List Char → List Char → List String
  | [], acc => if acc.isEmpty then [] else [String.mk acc.reverse]
  | c :: rest, acc =>
    if c = '\n' then String.mk acc.reverse :: splitlinesAux rest []
    else splitlinesAux rest (c :: acc)

/-- Split a file's contents into its lines (Python `str.splitlines`). -/
def splitlines (s : String) : List String :=
  splitlinesAux s.data []

/-- A Python numeric value (`isinstance(x, (int, float))`): an `int`, or
a `float` identified by the text `str(x)` renders it as. -/
inductive Num where
  | int (i : Int)
  | float (rendered : String)
deriving DecidableEq, Repr

/-- Python `str()` of a numeric value, as used by the f-string. -/
def Num.pystr : Num → String
  | .int i => toString i
  | .float r => r

/-- The fixed banner line of the `create_new_base_region` block:
`#` followed by 72 `*`. -/
def baseBanner : String :=
  "#************************************************************************"

/-- The title line of the `create_new_base_region` block. -/
def baseTitle : String :=
  "#****************** Create a new base region ****************************"

/-- `base.create_new_base_region`: raises `ValueError` when `surface`
is not a positive integer (the `int` type of `surface` and the `Num`
type of `base_pressure_coefficient` discharge the two `isinstance`
checks); `base_type` is never inspected by any check; on success the
five-line block is appended to the shared script state. -/
def create_new_base_region (st : State) (surface : Int)
    (base_type : String) (base_pressure_coefficient : Num) :
    Except String State :=
  if surface ≤ 0 then
    .error "`surface` should be an integer value greater than 0."
  else
    .ok (st.append_lines (.list [
      baseBanner,
      baseTitle,
      baseBanner,
      "#",
      "CREATE_NEW_BASE_REGION " ++ toString surface ++ " " ++ base_type
        ++ " " ++ base_pressure_coefficient.pystr]))

/-- `append_lines` adds exactly the argument's contribution at the end. -/
lemma append_lines_eq (st : State) (a : PyArg) :
    (st.append_lines a).lines = st.lines ++ a.contrib := by
  cases a <;> simp [State.append_lines, PyArg.contrib]

/-- Folding `append_lines` over a list of arguments appends the
concatenation of their contributions. -/
lemma foldl_append_lines (args : List PyArg) (st : State) :
    (args.foldl State.append_lines st).lines =
      st.lines ++ (args.map PyArg.contrib).flatten := by
  induction args generalizing st with
  | nil => simp
  | cons a rest ih =>
      simp [List.foldl_cons, ih, append_lines_eq, List.append_assoc]

/-- C1: for every sequence of `append_lines` calls whose arguments are
each a single string or a list of strings, the resulting log equals the
concatenation of the arguments' lines in exactly that order (a string
contributes one element, a list its elements in list order). -/
theorem append_order (args : List PyArg)
    (h : ∀ a ∈ args, a.isText = true) :
    (args.foldl State.append_lines State.init).lines =
      (args.map PyArg.contrib).flatten := by
  simpa [State.init] using foldl_append_lines args State.init

/- Witness for C1 at the arguments `"A"` then `["B", "C"]`. -/
theorem append_order_witness :
    (∀ a ∈ [PyArg.str "A", PyArg.list ["B", "C"]], a.isText = true) ∧
    ([PyArg.str "A", PyArg.list ["B", "C"]].foldl State.append_lines
        State.init).lines =
      ([PyArg.str "A", PyArg.list ["B", "C"]].map PyArg.contrib).flatten :=
  ⟨by decide, append_order [PyArg.str "A", PyArg.list ["B", "C"]]
    (by decide)⟩

/-- C2: appending the lines `["A", "B", "C"]` to an empty log and
writing to a file, then reading the file back and splitting its contents
into lines, yields exactly `["A", "B", "C", ""]` (the trailing empty
line comes from the final extra newline). -/
theorem write_round_trip :
    ((run World.init
        [Op.append (.list ["A", "B", "C"]), Op.write "out.txt"]).fs
          "out.txt").map splitlines = some ["A", "B", "C", ""] := by
  decide

/-- C3: from an empty log, appending `"FIRST"`, then
`["SECOND", "THIRD"]`, then writing to `out.txt` leaves the file content
exactly the string made of each log line followed by a newline plus one
additional trailing newline. -/
theorem end_to_end_write :
    (run World.init
        [Op.append (.str "FIRST"), Op.append (.list ["SECOND", "THIRD"]),
         Op.write "out.txt"]).fs "out.txt" =
      some "FIRST\nSECOND\nTHIRD\n\n" := by
  decide

/-- C4: `run_script` builds the command `[E, "-hidden", "-script", S]`
when hidden, with the single fixed constant `"-hidden"` as the hidden
flag, and `[E, "-script", S]` otherwise. -/
theorem run_script_command_spec (E S : String) :
    run_script_command E S true = [E, "-hidden", "-script", S] ∧
    run_script_command E S false = [E, "-script", S] := by
  constructor <;> rfl

/-- C5: from every starting log state, `hard_reset` returns normally
(no exception escapes, in particular not from the deletion-failure
path) and the in-memory log is empty afterwards, whether the file is
absent, deleted successfully, or fails to be deleted. -/
theorem hard_reset_clears (st : State) (fs : FS) (fn : String)
    (rf : Bool) :
    ∃ r, hard_reset st fs fn rf = .ok r ∧ r.1.lines = [] := by
  unfold hard_reset
  by_cases h : fs.existsFile fn
  · cases rf <;> simp [h, os_remove, State.clear_lines]
  · simp [h, State.clear_lines]

/-- C6: `write_to_file` leaves the in-memory log unchanged, and changes
no file other than the target. -/
theorem write_frame (st : State) (fs : FS) (fn g : String) :
    (st.write_to_file fs fn).1 = st ∧
    (g ≠ fn → (st.write_to_file fs fn).2 g = fs g) := by
  refine ⟨rfl, fun h => ?_⟩
  simp [State.write_to_file, FS.writeFile, h]

/- Witness for C6: a concrete write does not touch the log nor an
unrelated filename. -/
theorem write_frame_witness :
    ((State.mk ["X"]).write_to_file (fun _ => none) "a").1 =
        State.mk ["X"] ∧
    ((State.mk ["X"]).write_to_file (fun _ => none) "a").2 "b" = none :=
  ⟨(write_frame ⟨["X"]⟩ (fun _ => none) "a" "b").1,
   (write_frame ⟨["X"]⟩ (fun _ => none) "a" "b").2 (by decide)⟩

/-- C7: `clear_lines` leaves the log empty, clearing an empty log is a
no-op that succeeds, and clearing twice equals clearing once. -/
theorem clear_idempotent (st : State) :
    (st.clear_lines).lines = [] ∧
    State.clear_lines State.init = State.init ∧
    st.clear_lines.clear_lines = st.clear_lines :=
  ⟨rfl, rfl, rfl⟩

/-- C8: grow-only invariant: each core operation either appends a
(possibly empty) suffix to the stored line sequence or resets it to
empty all at once; no line is mutated, removed or reordered. -/
theorem grow_only (w : World) (op : Op) :
    (∃ t, (step w op).script.lines = w.script.lines ++ t) ∨
    (step w op).script.lines = [] := by
  cases op with
  | append a => exact .inl ⟨a.contrib, append_lines_eq _ _⟩
  | write f => exact .inl ⟨[], by simp [step, State.write_to_file]⟩
  | clear => exact .inr rfl
  | hardReset f rf =>
      right
      simp only [step]
      unfold hard_reset
      by_cases h : w.fs.existsFile f
      · cases rf <;> simp [h, os_remove, State.clear_lines]
      · simp [h, State.clear_lines]

/-- C9: an `append_lines` argument that is neither a string nor a list
falls through the `isinstance` chain: the call returns normally (the
embedding is a total function, mirroring the absence of any raise) and
the log is completely unchanged. -/
theorem append_other_ignored (st : State) (tag : Nat) :
    st.append_lines (.other tag) = st := rfl

/-- C10: for every positive integer surface, numeric pressure
coefficient and arbitrary `base_type` string (validated nowhere,
despite the documented ValueError), `create_new_base_region` returns
normally and appends its five-line block, ending in the
`CREATE_NEW_BASE_REGION` command line, to the log. -/
theorem base_region_no_validation (st : State) (surface : Int)
    (base_type : String) (bpc : Num) (h : 0 < surface) :
    create_new_base_region st surface base_type bpc =
      .ok ⟨st.lines ++ [baseBanner, baseTitle, baseBanner, "#",
        "CREATE_NEW_BASE_REGION " ++ toString surface ++ " " ++
          base_type ++ " " ++ bpc.pystr]⟩ := by
  unfold create_new_base_region
  rw [if_neg (by omega)]
  rfl

/- Witness for C10: surface 3 with the invalid base type `"BOGUS"` is
accepted and formatted verbatim. -/
theorem base_region_no_validation_witness :
    (0 : Int) < 3 ∧
    create_new_base_region State.init 3 "BOGUS" (Num.float "-0.2") =
      .ok ⟨[baseBanner, baseTitle, baseBanner, "#",
        "CREATE_NEW_BASE_REGION 3 BOGUS -0.2"]⟩ :=
  ⟨by decide, by
    rw [base_region_no_validation State.init 3 "BOGUS" (Num.float "-0.2")
      (by decide)]
    rfl⟩

end PyFS
